import Mathlib

/-!
# dcgp: symbolic simplifiers of the wrapped primitive operators

A shallow embedding of the `print_my_*` functions of `src/wrapped_functions.hpp`.
A `std::string` is modelled by a Lean `String`; `==`, `!=`, `&&`, `||` and `+`
of the source become `==`, `!=`, `&&`, `||` and `++` on `String`, with the
branches taken in the order the source writes them.
-/

namespace dcgp

/-! ## The nine symbolic simplifiers -/

/-- Symbolic printer of the sum, `print_my_sum` of the source. -/
def print_my_sum (s1 s2 : String) : String :=
  if s1 == s2 then "(2*" ++ s1 ++ ")"
  else if s1 == "0" then s2
  else if s2 == "0" then s1
  else "(" ++ s1 ++ "+" ++ s2 ++ ")"

/-- Symbolic printer of the difference, `print_my_diff` of the source. -/
def print_my_diff (s1 s2 : String) : String :=
  if s1 == s2 then "0"
  else if s1 == "0" then "(-" ++ s2 ++ ")"
  else if s2 == "0" then s1
  else "(" ++ s1 ++ "-" ++ s2 ++ ")"

/-- Symbolic printer of the product, `print_my_mul` of the source. -/
def print_my_mul (s1 s2 : String) : String :=
  if s1 == "0" || s2 == "0" then "0"
  else if s1 == s2 then s1 ++ "^2"
  else if s1 == "1" then s2
  else if s2 == "1" then s1
  else "(" ++ s1 ++ "*" ++ s2 ++ ")"

/-- Symbolic printer of the quotient, `print_my_div` of the source. -/
def print_my_div (s1 s2 : String) : String :=
  if s1 == "0" && s2 != "0" then "0"
  else if s1 == s2 then "1"
  else if s2 == "1" then s1
  else "(" ++ s1 ++ "/" ++ s2 ++ ")"

/-- Symbolic printer of the power, `print_my_pow` of the source. -/
def print_my_pow (s1 s2 : String) : String :=
  if s1 == "0" && s2 != "0" then "0"
  else if s1 == "1" then "1"
  else if s2 == "0" && s1 != "0" then "1"
  else if s2 == "1" then s1
  else "abs(" ++ s1 ++ ")^(" ++ s2 ++ ")"

/-- Symbolic printer of the sigmoid, `print_my_sig` of the source. -/
def print_my_sig (s1 s2 : String) : String :=
  if s1 == "0" || s2 == "0" then "0.5"
  else "sig(" ++ s1 ++ "," ++ s2 ++ ")"

/-- Symbolic printer of the binary square root, `print_my_sqrt` of the source:
three `if` statements that each return, then the generic form. -/
def print_my_sqrt (s1 s2 : String) : String :=
  if s2 == "0" && s1 != "0" then "sqrt(" ++ s1 ++ ")"
  else if s1 == "0" && s2 != "0" then "sqrt(" ++ s2 ++ ")"
  else if s1 == "0" && s2 == "0" then "0"
  else "sqrt(" ++ s1 ++ " + " ++ s2 ++ ")"

/-- Symbolic printer of the sine, `print_my_sin` of the source; the second
operand is discarded. -/
def print_my_sin (s1 _s2 : String) : String :=
  "sin(" ++ s1 ++ ")"

/-- Symbolic printer of the logarithm, `print_my_log` of the source; the second
operand is discarded. -/
def print_my_log (s1 _s2 : String) : String :=
  if s1 == "1" then "0"
  else "log(" ++ s1 ++ ")"

/-! ## Well-balanced parentheses -/

/-- Parentheses of a string are well balanced: every prefix has at least as
many opening as closing parentheses, and the totals are equal. -/
def WellBalanced (s : String) : Prop :=
  (∀ p ∈ s.data.inits, p.count ')' ≤ p.count '(') ∧
    s.data.count '(' = s.data.count ')'

instance (s : String) : Decidable (WellBalanced s) := by
  unfold WellBalanced; infer_instance

/-- Change of nesting depth made by one character. -/
def parenStep (c : Char) : Int :=
  if c = '(' then 1 else if c = ')' then -1 else 0

/-- Opening minus closing parentheses of a character sequence. -/
def excess (l : List Char) : Int :=
  (l.count '(' : Int) - (l.count ')' : Int)

/-- Starting from nesting depth `d`, no prefix of `l` closes more parentheses
than are open. -/
def PrefixOK (d : Int) (l : List Char) : Prop :=
  ∀ p, p <+: l → 0 ≤ d + excess p

/-! ## The grammar of expression strings

The expression grammar: a literal token, or `"(" expr op-symbol expr ")"`, or
`func "(" expr [, expr] ")"`, or `expr "^" "(" expr ")"`. Its terminals are
read as follows: an op-symbol is one of `+ - * /`; a literal token is a
non-empty run of letters, digits and decimal points (a variable name or a
number such as `x`, `0`, `0.5`); a function name is a non-empty run of
letters. -/

/-- Binary operator symbols of the expression grammar. -/
def isOpSymbol (c : Char) : Bool :=
  c == '+' || c == '-' || c == '*' || c == '/'

/-- Characters of a literal token: letters, digits and the decimal point. -/
def isLiteralChar (c : Char) : Bool :=
  c.isAlphanum || c == '.'

/-- Literal tokens: non-empty runs of literal characters. -/
def isLiteralToken (s : String) : Bool :=
  !s.data.isEmpty && s.data.all isLiteralChar

/-- Function names: non-empty runs of letters. -/
def isFuncName (s : String) : Bool :=
  !s.data.isEmpty && s.data.all Char.isAlpha

/-- Strings that conform to the expression grammar, all parenthesization
explicit. -/
inductive Expression : String → Prop
  | literal (t : String) : isLiteralToken t = true → Expression t
  | binary (a b : String) (op : Char) :
      Expression a → isOpSymbol op = true → Expression b →
      Expression ("(" ++ a ++ String.singleton op ++ b ++ ")")
  | call1 (f a : String) :
      isFuncName f = true → Expression a → Expression (f ++ "(" ++ a ++ ")")
  | call2 (f a b : String) :
      isFuncName f = true → Expression a → Expression b →
      Expression (f ++ "(" ++ a ++ "," ++ b ++ ")")
  | power (a b : String) :
      Expression a → Expression b → Expression (a ++ "^(" ++ b ++ ")")

/-! ## Numeric evaluators

The evaluators of the source are templates over the value type `T` (`double`
or `audi::gdual`). The arithmetic of `T` is taken from its operations, and the
functions `exp`, `pow` and `abs` that the standard library or audi supplies
are taken as parameters. -/

/-- Numeric sigmoid, `my_sig` of the source: `1 / (1 + exp(-beta * t))`. -/
def my_sig {T : Type} [One T] [Add T] [Neg T] [Mul T] [Div T]
    (exp : T → T) (t beta : T) : T :=
  1 / (1 + exp (-beta * t))

/-- Numeric power, `my_pow` of the source: `pow(abs(x), y)`. -/
def my_pow {T : Type} (pow : T → T → T) (abs : T → T) (x y : T) : T :=
  pow (abs x) y

/-! ## Theorems -/

/-! ### Nesting depth of character sequences -/

/-- The empty sequence has excess zero. -/
theorem excess_nil : excess [] = 0 := by simp [excess]

/-- Excess of a sequence from its first character and the rest. -/
theorem excess_cons (c : Char) (l : List Char) :
    excess (c :: l) = parenStep c + excess l := by
  simp only [excess, List.count_cons, parenStep, beq_iff_eq]
  by_cases h1 : c = '(' <;> by_cases h2 : c = ')'
  · subst h1; exact absurd h2 (by decide)
  · simp [h1]; ring
  · simp [h2]; ring
  · simp [h1, h2]

/-- Excess is additive over concatenation. -/
theorem excess_append (a b : List Char) : excess (a ++ b) = excess a + excess b := by
  simp only [excess, List.count_append]
  push_cast
  ring

/-- The empty sequence is fine from any non-negative depth. -/
theorem prefixOK_nil (d : Int) : PrefixOK d [] ↔ 0 ≤ d := by
  constructor
  · intro h
    simpa [excess] using h [] (List.prefix_refl _)
  · intro h p hp
    have : p = [] := List.prefix_nil.mp hp
    subst this
    simpa [excess] using h

/-- Scanning one character: the depth is non-negative and the rest is fine
from the depth after the character. -/
theorem prefixOK_cons (d : Int) (c : Char) (l : List Char) :
    PrefixOK d (c :: l) ↔ 0 ≤ d ∧ PrefixOK (d + parenStep c) l := by
  constructor
  · intro h
    refine ⟨?_, ?_⟩
    · simpa [excess] using h [] List.nil_prefix
    · intro p hp
      have := h (c :: p) ((List.prefix_cons_inj c).mpr hp)
      rw [excess_cons] at this
      omega
  · rintro ⟨h0, h⟩ p hp
    rcases List.prefix_cons_iff.mp hp with rfl | ⟨t, rfl, ht⟩
    · simpa [excess] using h0
    · have := h t ht
      rw [excess_cons]
      omega

/-- Scanning a concatenation: the first part, then the second from the depth
the first part leaves. -/
theorem prefixOK_append (d : Int) (a b : List Char) :
    PrefixOK d (a ++ b) ↔ PrefixOK d a ∧ PrefixOK (d + excess a) b := by
  induction a generalizing d with
  | nil =>
    simp only [List.nil_append, excess_nil, add_zero, prefixOK_nil]
    constructor
    · intro h
      exact ⟨by simpa [excess] using h [] List.nil_prefix, h⟩
    · exact fun h => h.2
  | cons c a ih =>
    rw [List.cons_append, prefixOK_cons, prefixOK_cons, ih, excess_cons c a, and_assoc, add_assoc]

/-- A sequence that is fine from one depth is fine from any greater depth. -/
theorem prefixOK_mono {d e : Int} {l : List Char} (h : PrefixOK d l) (hde : d ≤ e) :
    PrefixOK e l := by
  intro p hp
  have := h p hp
  omega

/-- Well-balancedness as a scan from depth zero that ends at depth zero. -/
theorem wellBalanced_iff (s : String) :
    WellBalanced s ↔ PrefixOK 0 s.data ∧ excess s.data = 0 := by
  unfold WellBalanced PrefixOK excess
  constructor
  · rintro ⟨h1, h2⟩
    refine ⟨fun p hp => ?_, by omega⟩
    have := h1 p ((List.mem_inits _ _).mpr hp)
    omega
  · rintro ⟨h1, h2⟩
    refine ⟨fun p hp => ?_, by omega⟩
    have := h1 p ((List.mem_inits _ _).mp hp)
    omega

/-! ### Shape of the strings of the grammar -/

/-- No string of the grammar holds a blank. -/
theorem expression_no_blank (s : String) (h : Expression s) : ' ' ∉ s.data := by
  induction h with
  | literal t ht =>
    intro hm
    simp only [isLiteralToken, Bool.and_eq_true, List.all_eq_true] at ht
    exact absurd (ht.2 _ hm) (by decide)
  | binary a b op _ hop _ iha ihb =>
    have : op ≠ ' ' := by rintro rfl; exact absurd hop (by decide)
    simp [String.data_append, iha, ihb, this.symm]
  | call1 f a hf _ iha =>
    simp only [isFuncName, Bool.and_eq_true, List.all_eq_true] at hf
    have : ' ' ∉ f.data := fun hm => absurd (hf.2 _ hm) (by decide)
    simp [String.data_append, iha, this]
  | call2 f a b hf _ _ iha ihb =>
    simp only [isFuncName, Bool.and_eq_true, List.all_eq_true] at hf
    have : ' ' ∉ f.data := fun hm => absurd (hf.2 _ hm) (by decide)
    simp [String.data_append, iha, ihb, this]
  | power a b _ _ iha ihb =>
    simp [String.data_append, iha, ihb]

/-- A string of the grammar is a literal token or ends in a closing parenthesis. -/
theorem expression_literal_or_closed (s : String) (h : Expression s) :
    isLiteralToken s = true ∨ ∃ l, s.data = l ++ [')'] := by
  cases h with
  | literal t ht => exact Or.inl ht
  | binary a b op _ _ _ =>
    exact Or.inr ⟨'(' :: (a.data ++ op :: b.data), by simp [String.data_append, String.singleton]⟩
  | call1 f a _ _ =>
    exact Or.inr ⟨f.data ++ '(' :: a.data, by simp [String.data_append]⟩
  | call2 f a b _ _ _ =>
    exact Or.inr ⟨f.data ++ '(' :: (a.data ++ ',' :: b.data), by simp [String.data_append]⟩
  | power a b _ _ =>
    exact Or.inr ⟨a.data ++ '^' :: '(' :: b.data, by simp [String.data_append]⟩

/-- The square form of the product printer is outside the grammar. -/
theorem not_expression_square (s : String) : ¬ Expression (s ++ "^2") := by
  intro h
  rcases expression_literal_or_closed _ h with hl | ⟨l, hl⟩
  · simp only [isLiteralToken, Bool.and_eq_true, List.all_eq_true] at hl
    exact absurd (hl.2 '^' (by simp [String.data_append])) (by decide)
  · have := congrArg List.reverse hl
    simp [String.data_append] at this

/-- A string of the grammar is non-empty, does not start with a minus sign, and
when it starts with an opening parenthesis no minus sign follows it. -/
theorem expression_head (s : String) (h : Expression s) :
    s.data ≠ [] ∧ s.data.head? ≠ some '-' ∧
      (s.data.head? = some '(' → s.data.tail.head? ≠ some '-') := by
  induction h with
  | literal t ht =>
    simp only [isLiteralToken, Bool.and_eq_true, List.all_eq_true] at ht
    obtain ⟨hne, hall⟩ := ht
    cases hd : t.data with
    | nil => simp [hd] at hne
    | cons c r =>
      have hc : isLiteralChar c = true := hall c (by simp [hd])
      have h1 : c ≠ '-' := by rintro rfl; exact absurd hc (by decide)
      have h2 : c ≠ '(' := by rintro rfl; exact absurd hc (by decide)
      simp [h1, h2]
  | binary a b op _ _ _ iha _ =>
    obtain ⟨hne, hh, _⟩ := iha
    cases hd : a.data with
    | nil => exact absurd hd hne
    | cons c r =>
      have h1 : c ≠ '-' := by simpa [hd] using hh
      simp [String.data_append, hd, h1]
  | call1 f a hf _ _ =>
    simp only [isFuncName, Bool.and_eq_true, List.all_eq_true] at hf
    obtain ⟨hne, hall⟩ := hf
    cases hd : f.data with
    | nil => simp [hd] at hne
    | cons c r =>
      have hc : c.isAlpha = true := hall c (by simp [hd])
      have h1 : c ≠ '-' := by rintro rfl; exact absurd hc (by decide)
      have h2 : c ≠ '(' := by rintro rfl; exact absurd hc (by decide)
      simp [String.data_append, hd, h1, h2]
  | call2 f a b hf _ _ _ _ =>
    simp only [isFuncName, Bool.and_eq_true, List.all_eq_true] at hf
    obtain ⟨hne, hall⟩ := hf
    cases hd : f.data with
    | nil => simp [hd] at hne
    | cons c r =>
      have hc : c.isAlpha = true := hall c (by simp [hd])
      have h1 : c ≠ '-' := by rintro rfl; exact absurd hc (by decide)
      have h2 : c ≠ '(' := by rintro rfl; exact absurd hc (by decide)
      simp [String.data_append, hd, h1, h2]
  | power a b _ _ iha _ =>
    obtain ⟨hne, hh, ht⟩ := iha
    cases hd : a.data with
    | nil => exact absurd hd hne
    | cons c r =>
      have h1 : c ≠ '-' := by simpa [hd] using hh
      rw [hd] at ht
      cases r with
      | nil => simp [String.data_append, hd, h1]
      | cons c2 r2 => simpa [String.data_append, hd, h1] using ht

/-- The negation form of the difference printer is outside the grammar. -/
theorem not_expression_negation (s : String) : ¬ Expression ("(-" ++ s ++ ")") := by
  intro h
  have := (expression_head _ h).2.2
  simp [String.data_append] at this


/-- The constants the printers emit are literal tokens. -/
theorem expression_digit : Expression "0" ∧ Expression "1" ∧ Expression "2" ∧ Expression "0.5" :=
  ⟨Expression.literal _ (by decide), Expression.literal _ (by decide),
    Expression.literal _ (by decide), Expression.literal _ (by decide)⟩

/-- The spaced sum form of the square-root printer is outside the grammar. -/
theorem not_expression_spaced (f s1 s2 : String) :
    ¬ Expression (f ++ s1 ++ " + " ++ s2 ++ ")") := by
  intro h
  exact expression_no_blank _ h (by simp [String.data_append])

/-- The generic form of the power printer is a power of a call of `abs`. -/
theorem expression_abs_power (s1 s2 : String) (h1 : Expression s1) (h2 : Expression s2) :
    Expression ("abs(" ++ s1 ++ ")^(" ++ s2 ++ ")") := by
  have e : "abs(" ++ s1 ++ ")^(" ++ s2 ++ ")" = ("abs" ++ "(" ++ s1 ++ ")") ++ "^(" ++ s2 ++ ")" := by
    apply String.ext; simp [String.data_append]
  rw [e]
  exact Expression.power _ s2 (Expression.call1 "abs" s1 (by decide) h1) h2

/-! ### Non-empty strings -/

/-- A string with a non-empty character sequence is not the empty string. -/
theorem string_ne_empty (s : String) (h : s.data ≠ []) : s ≠ "" := by
  intro e
  exact h (by rw [e])

/-! ### The claims -/

/-- C1: balanced parentheses are preserved. For operands `s1`, `s2` whose
parentheses are well balanced, the output of each of the nine symbolic
simplifiers has well-balanced parentheses. -/
theorem print_preserves_balanced (s1 s2 : String)
    (h1 : WellBalanced s1) (h2 : WellBalanced s2) :
    WellBalanced (print_my_sum s1 s2) ∧ WellBalanced (print_my_diff s1 s2) ∧
      WellBalanced (print_my_mul s1 s2) ∧ WellBalanced (print_my_div s1 s2) ∧
      WellBalanced (print_my_pow s1 s2) ∧ WellBalanced (print_my_sig s1 s2) ∧
      WellBalanced (print_my_sqrt s1 s2) ∧ WellBalanced (print_my_sin s1 s2) ∧
      WellBalanced (print_my_log s1 s2) := by
  rw [wellBalanced_iff] at h1 h2
  obtain ⟨p1, e1⟩ := h1
  obtain ⟨p2, e2⟩ := h2
  have q1 := prefixOK_mono p1 (show (0:Int) ≤ 1 by decide)
  have q2 := prefixOK_mono p2 (show (0:Int) ≤ 1 by decide)
  refine ⟨?_, ?_, ?_, ?_, ?_, ?_, ?_, ?_, ?_⟩
  · unfold print_my_sum
    split_ifs <;> rw [wellBalanced_iff] <;>
      simp [String.data_append, prefixOK_cons, prefixOK_append, prefixOK_nil, excess_cons,
        excess_append, parenStep, excess_nil, e1, e2, p1, p2, q1, q2]
  · unfold print_my_diff
    split_ifs <;> rw [wellBalanced_iff] <;>
      simp [String.data_append, prefixOK_cons, prefixOK_append, prefixOK_nil, excess_cons,
        excess_append, parenStep, excess_nil, e1, e2, p1, p2, q1, q2]
  · unfold print_my_mul
    split_ifs <;> rw [wellBalanced_iff] <;>
      simp [String.data_append, prefixOK_cons, prefixOK_append, prefixOK_nil, excess_cons,
        excess_append, parenStep, excess_nil, e1, e2, p1, p2, q1, q2]
  · unfold print_my_div
    split_ifs <;> rw [wellBalanced_iff] <;>
      simp [String.data_append, prefixOK_cons, prefixOK_append, prefixOK_nil, excess_cons,
        excess_append, parenStep, excess_nil, e1, e2, p1, p2, q1, q2]
  · unfold print_my_pow
    split_ifs <;> rw [wellBalanced_iff] <;>
      simp [String.data_append, prefixOK_cons, prefixOK_append, prefixOK_nil, excess_cons,
        excess_append, parenStep, excess_nil, e1, e2, p1, p2, q1, q2]
  · unfold print_my_sig
    split_ifs <;> rw [wellBalanced_iff] <;>
      simp [String.data_append, prefixOK_cons, prefixOK_append, prefixOK_nil, excess_cons,
        excess_append, parenStep, excess_nil, e1, e2, p1, p2, q1, q2]
  · unfold print_my_sqrt
    split_ifs <;> rw [wellBalanced_iff] <;>
      simp [String.data_append, prefixOK_cons, prefixOK_append, prefixOK_nil, excess_cons,
        excess_append, parenStep, excess_nil, e1, e2, p1, p2, q1, q2]
  · unfold print_my_sin
    rw [wellBalanced_iff]
    simp [String.data_append, prefixOK_cons, prefixOK_append, prefixOK_nil, excess_cons,
        excess_append, parenStep, excess_nil, e1, e2, p1, p2, q1, q2]
  · unfold print_my_log
    split_ifs <;> rw [wellBalanced_iff] <;>
      simp [String.data_append, prefixOK_cons, prefixOK_append, prefixOK_nil, excess_cons,
        excess_append, parenStep, excess_nil, e1, e2, p1, p2, q1, q2]

/-- C1 (witness): the nine simplifiers at the balanced operands "(a)" and "b". -/
theorem print_preserves_balanced_witness :
    WellBalanced "(a)" ∧ WellBalanced "b" ∧
      WellBalanced (print_my_sum "(a)" "b") ∧ WellBalanced (print_my_diff "(a)" "b") ∧
      WellBalanced (print_my_mul "(a)" "b") ∧ WellBalanced (print_my_div "(a)" "b") ∧
      WellBalanced (print_my_pow "(a)" "b") ∧ WellBalanced (print_my_sig "(a)" "b") ∧
      WellBalanced (print_my_sqrt "(a)" "b") ∧ WellBalanced (print_my_sin "(a)" "b") ∧
      WellBalanced (print_my_log "(a)" "b") :=
  ⟨by decide, by decide, print_preserves_balanced "(a)" "b" (by decide) (by decide)⟩

/-- C2 (counterexample): with both operands "1" the equal-operands rule fires
before the identity rules, so `print_my_mul "1" "1"` is "1^2" and not "1". -/
theorem print_my_mul_one_one_not_identity :
    print_my_mul "1" "1" = "1^2" ∧ print_my_mul "1" "1" ≠ "1" := by
  decide

/-- C2 (amended): for every string `x` other than "1", multiplying by "1" on
either side prints `x` unchanged. -/
theorem print_my_mul_identity (x : String) (hx : x ≠ "1") :
    print_my_mul "1" x = x ∧ print_my_mul x "1" = x := by
  unfold print_my_mul
  by_cases h0 : x = "0"
  · subst h0; decide
  · have h1 : ("1" : String) ≠ x := fun e => hx e.symm
    simp [h0, hx, h1]

/-- C2 (witness): the identity folding at the operand "x". -/
theorem print_my_mul_identity_witness :
    ("x" : String) ≠ "1" ∧ print_my_mul "1" "x" = "x" ∧ print_my_mul "x" "1" = "x" :=
  ⟨by decide, print_my_mul_identity "x" (by decide)⟩

/-- C3 (counterexample): `print_my_div "0" "0"` is not the generic form "(0/0)". -/
theorem print_my_div_zero_zero_not_generic :
    print_my_div "0" "0" ≠ "(0/0)" := by
  decide

/-- C3 (amended): `print_my_div "0" "0"` skips the zero-numerator rule, whose
guard asks for a second operand other than "0", and is then folded to "1" by
the equal-operands rule. -/
theorem print_my_div_zero_zero :
    print_my_div "0" "0" = "1" := by
  decide

/-- C4: for every string `x`, the sentinels "0" and "1" included,
`print_my_diff x x` is "0" and `print_my_div x x` is "1". -/
theorem print_self_cancellation (x : String) :
    print_my_diff x x = "0" ∧ print_my_div x x = "1" := by
  constructor
  · simp [print_my_diff]
  · unfold print_my_div
    by_cases h0 : x = "0"
    · subst h0; decide
    · simp [h0]

/-- C5 (counterexample): with both operands "0" the zero rule fires first, so
`print_my_mul "0" "0"` is "0" and not "0^2". -/
theorem print_my_mul_zero_zero_not_square :
    print_my_mul "0" "0" = "0" ∧ print_my_mul "0" "0" ≠ "0" ++ "^2" := by
  decide

/-- C5 (amended): for every string `x` other than "0", `print_my_mul x x` is
`x` followed by "^2". -/
theorem print_my_mul_self (x : String) (hx : x ≠ "0") :
    print_my_mul x x = x ++ "^2" := by
  simp [print_my_mul, hx]

/-- C5 (witness): the square form at the operand "x". -/
theorem print_my_mul_self_witness :
    ("x" : String) ≠ "0" ∧ print_my_mul "x" "x" = "x" ++ "^2" :=
  ⟨by decide, print_my_mul_self "x" (by decide)⟩

/-- C6: for every string `s` (also "0", "1" and the empty string) a "0" on
either side of `print_my_mul` gives "0"; the rule is taken before the
equal-operands rule and the "1" rules. -/
theorem print_my_mul_zero (s : String) :
    print_my_mul "0" s = "0" ∧ print_my_mul s "0" = "0" ∧
      print_my_mul "0" "0" = "0" ∧ print_my_mul "1" "0" = "0" ∧
      print_my_mul "0" "1" = "0" ∧ print_my_mul "" "0" = "0" ∧
      print_my_mul "0" "" = "0" := by
  refine ⟨?_, ?_, ?_, ?_, ?_, ?_, ?_⟩
  · simp [print_my_mul]
  · simp [print_my_mul]
  all_goals decide

/-- C7 (counterexample): the operands "a" and "b" conform to the expression
grammar, and the output of `print_my_sqrt` on them, "sqrt(a + b)", does not. -/
theorem print_my_sqrt_leaves_grammar :
    Expression "a" ∧ Expression "b" ∧ print_my_sqrt "a" "b" = "sqrt(a + b)" ∧
      ¬ Expression (print_my_sqrt "a" "b") := by
  refine ⟨Expression.literal _ (by decide), Expression.literal _ (by decide), by decide, ?_⟩
  intro h
  exact expression_no_blank _ h (by decide)

/-- C7 (amended): for operands `s1`, `s2` that conform to the expression
grammar, the outputs of the sum, quotient, power, sigmoid, sine and logarithm
printers conform to it; the output of the difference printer conforms except
in the negation form (first operand "0", second not), that of the product
printer except in the square form (equal operands other than "0"), and that of
the square-root printer except in the spaced sum form (neither operand "0"). -/
theorem print_grammar_closure (s1 s2 : String) (h1 : Expression s1) (h2 : Expression s2) :
    Expression (print_my_sum s1 s2) ∧ Expression (print_my_div s1 s2) ∧
      Expression (print_my_pow s1 s2) ∧ Expression (print_my_sig s1 s2) ∧
      Expression (print_my_sin s1 s2) ∧ Expression (print_my_log s1 s2) ∧
      (Expression (print_my_diff s1 s2) ↔ ¬ (s1 = "0" ∧ s2 ≠ "0")) ∧
      (Expression (print_my_mul s1 s2) ↔ ¬ (s1 = s2 ∧ s1 ≠ "0")) ∧
      (Expression (print_my_sqrt s1 s2) ↔ (s1 = "0" ∨ s2 = "0")) := by
  obtain ⟨z0, z1, z2, z05⟩ := expression_digit
  refine ⟨?_, ?_, ?_, ?_, ?_, ?_, ?_, ?_, ?_⟩
  · unfold print_my_sum
    split_ifs
    · exact Expression.binary "2" s1 '*' z2 (by decide) h1
    · exact h2
    · exact h1
    · exact Expression.binary s1 s2 '+' h1 (by decide) h2
  · unfold print_my_div
    split_ifs
    · exact z0
    · exact z1
    · exact h1
    · exact Expression.binary s1 s2 '/' h1 (by decide) h2
  · unfold print_my_pow
    split_ifs
    · exact z0
    · exact z1
    · exact z1
    · exact h1
    · exact expression_abs_power s1 s2 h1 h2
  · unfold print_my_sig
    split_ifs
    · exact z05
    · exact Expression.call2 "sig" s1 s2 (by decide) h1 h2
  · exact Expression.call1 "sin" s1 (by decide) h1
  · unfold print_my_log
    split_ifs
    · exact z0
    · exact Expression.call1 "log" s1 (by decide) h1
  · unfold print_my_diff
    by_cases e : s1 = s2
    · subst e; simpa using z0
    · by_cases e1 : s1 = "0"
      · have e2 : s2 ≠ "0" := fun h => e (e1.trans h.symm)
        simp [e1, e2, Ne.symm e2, not_expression_negation]
      · by_cases e2 : s2 = "0"
        · simpa [e, e1, e2] using h1
        · simpa [e, e1, e2] using Expression.binary s1 s2 '-' h1 (by decide) h2
  · unfold print_my_mul
    by_cases e1 : s1 = "0"
    · simpa [e1] using z0
    · by_cases e2 : s2 = "0"
      · simpa [e1, e2] using z0
      · by_cases e : s1 = s2
        · subst e; simp [e1, not_expression_square]
        · by_cases o1 : s1 = "1"
          · subst o1
            simpa [e, e1, e2] using h2
          · by_cases o2 : s2 = "1"
            · simpa [e, e1, e2, o1, o2] using h1
            · simpa [e, e1, e2, o1, o2] using Expression.binary s1 s2 '*' h1 (by decide) h2
  · unfold print_my_sqrt
    by_cases e1 : s1 = "0" <;> by_cases e2 : s2 = "0"
    · simpa [e1, e2] using z0
    · simpa [e1, e2] using Expression.call1 "sqrt" s2 (by decide) h2
    · simpa [e1, e2] using Expression.call1 "sqrt" s1 (by decide) h1
    · simp [e1, e2, not_expression_spaced]

/-- C7 (witness): the grammar closure at the literal operands "a" and "b". -/
theorem print_grammar_closure_witness :
    Expression "a" ∧ Expression "b" ∧
      Expression (print_my_sum "a" "b") ∧ Expression (print_my_div "a" "b") ∧
      Expression (print_my_pow "a" "b") ∧ Expression (print_my_sig "a" "b") ∧
      Expression (print_my_sin "a" "b") ∧ Expression (print_my_log "a" "b") ∧
      (Expression (print_my_diff "a" "b") ↔ ¬ (("a" : String) = "0" ∧ ("b" : String) ≠ "0")) ∧
      (Expression (print_my_mul "a" "b") ↔ ¬ (("a" : String) = "b" ∧ ("a" : String) ≠ "0")) ∧
      (Expression (print_my_sqrt "a" "b") ↔ (("a" : String) = "0" ∨ ("b" : String) = "0")) :=
  ⟨Expression.literal _ (by decide), Expression.literal _ (by decide),
    print_grammar_closure "a" "b" (Expression.literal _ (by decide))
      (Expression.literal _ (by decide))⟩

/-- C8: `print_my_pow` takes the rules in the stated priority order: "0" for
base "0" with an exponent other than "0"; else "1" for base "1"; else "1" for
exponent "0" with a base other than "0"; else the base for exponent "1"; else
the generic form with `abs`. So "a", "b" print "abs(a)^(b)" and "0", "0" print
"abs(0)^(0)". -/
theorem print_my_pow_rules (s1 s2 : String) :
    print_my_pow s1 s2 =
        (if s1 = "0" ∧ s2 ≠ "0" then "0"
         else if s1 = "1" then "1"
         else if s2 = "0" ∧ s1 ≠ "0" then "1"
         else if s2 = "1" then s1
         else "abs(" ++ s1 ++ ")^(" ++ s2 ++ ")") ∧
      print_my_pow "a" "b" = "abs(a)^(b)" ∧
      print_my_pow "0" "0" = "abs(0)^(0)" := by
  refine ⟨?_, ?_, ?_⟩
  · unfold print_my_pow
    by_cases h1 : s1 = "0" <;> by_cases h2 : s2 = "0" <;>
      by_cases h3 : s1 = "1" <;> by_cases h4 : s2 = "1" <;> simp [h1, h2, h3, h4]
  all_goals decide

/-- C9: `print_my_div` takes the rules in the stated priority order: "0" for
numerator "0" with a denominator other than "0"; else "1" for equal operands;
else the numerator for denominator "1"; else the generic form. -/
theorem print_my_div_rules (s1 s2 : String) :
    print_my_div s1 s2 =
      (if s1 = "0" ∧ s2 ≠ "0" then "0"
       else if s1 = s2 then "1"
       else if s2 = "1" then s1
       else "(" ++ s1 ++ "/" ++ s2 ++ ")") := by
  unfold print_my_div
  by_cases h1 : s1 = "0" <;> by_cases h2 : s2 = "0" <;>
    by_cases h3 : s1 = s2 <;> by_cases h4 : s2 = "1" <;> simp [h1, h2, h3, h4]

/-- C10: `print_my_sqrt` covers its four cases: only the second operand "0"
prints the square root of the first; only the first operand "0" prints the
square root of the second; both "0" print "0"; neither "0" prints the square
root of the two joined by a plus with a blank on each side. -/
theorem print_my_sqrt_cases (s1 s2 : String) :
    (s2 = "0" → s1 ≠ "0" → print_my_sqrt s1 s2 = "sqrt(" ++ s1 ++ ")") ∧
      (s1 = "0" → s2 ≠ "0" → print_my_sqrt s1 s2 = "sqrt(" ++ s2 ++ ")") ∧
      (s1 = "0" → s2 = "0" → print_my_sqrt s1 s2 = "0") ∧
      (s1 ≠ "0" → s2 ≠ "0" →
        print_my_sqrt s1 s2 = "sqrt(" ++ s1 ++ " + " ++ s2 ++ ")") := by
  unfold print_my_sqrt
  refine ⟨?_, ?_, ?_, ?_⟩
  · intro h2 h1; simp [h1, h2]
  · intro h1 h2; simp [h1, h2]
  · intro h1 h2; simp [h1, h2]
  · intro h1 h2; simp [h1, h2]

/-- C11: `print_my_sum` takes the rules in the stated priority order: the
doubled form for equal operands (so `x`, `x` print "(2*x)" for every `x`, "0"
included); else the second operand when the first is "0"; else the first when
the second is "0"; else the generic form. -/
theorem print_my_sum_rules (s1 s2 x : String) :
    print_my_sum s1 s2 =
        (if s1 = s2 then "(2*" ++ s1 ++ ")"
         else if s1 = "0" then s2
         else if s2 = "0" then s1
         else "(" ++ s1 ++ "+" ++ s2 ++ ")") ∧
      print_my_sum x x = "(2*" ++ x ++ ")" ∧
      print_my_sum "0" "0" = "(2*0)" := by
  refine ⟨?_, ?_, ?_⟩
  · unfold print_my_sum
    by_cases h1 : s1 = s2 <;> by_cases h2 : s1 = "0" <;>
      by_cases h3 : s2 = "0" <;> simp [h1, h2, h3]
  · simp [print_my_sum]
  · decide

/-- C12: `print_my_diff` takes the rules in the stated priority order: "0" for
equal operands; else the negated second operand when the first is "0"; else
the first operand when the second is "0"; else the generic form. -/
theorem print_my_diff_rules (s1 s2 : String) :
    print_my_diff s1 s2 =
      (if s1 = s2 then "0"
       else if s1 = "0" then "(-" ++ s2 ++ ")"
       else if s2 = "0" then s1
       else "(" ++ s1 ++ "-" ++ s2 ++ ")") := by
  unfold print_my_diff
  by_cases h1 : s1 = s2 <;> by_cases h2 : s1 = "0" <;>
    by_cases h3 : s2 = "0" <;> simp [h1, h2, h3]

/-- C13: a "0" on either side of `print_my_sig` prints "0.5", whatever the
other operand `s`; with neither operand "0" the generic form is printed. -/
theorem print_my_sig_rules (s s1 s2 : String) :
    print_my_sig "0" s = "0.5" ∧ print_my_sig s "0" = "0.5" ∧
      (s1 ≠ "0" → s2 ≠ "0" →
        print_my_sig s1 s2 = "sig(" ++ s1 ++ "," ++ s2 ++ ")") := by
  unfold print_my_sig
  refine ⟨?_, ?_, ?_⟩
  · simp
  · simp
  · intro h1 h2; simp [h1, h2]

/-- C14: the unary printers ignore the second operand. For every `s1`, `s2`,
`s2'` the sine prints "sin(s1)" for both second operands, and the logarithm
prints the same for both: "0" when `s1` is "1" and "log(s1)" otherwise. -/
theorem print_unary_ignores_second (s1 s2 s2' : String) :
    print_my_sin s1 s2 = print_my_sin s1 s2' ∧
      print_my_sin s1 s2' = "sin(" ++ s1 ++ ")" ∧
      print_my_log s1 s2 = print_my_log s1 s2' ∧
      print_my_log s1 s2 = (if s1 = "1" then "0" else "log(" ++ s1 ++ ")") := by
  refine ⟨rfl, rfl, rfl, ?_⟩
  unfold print_my_log
  by_cases h : s1 = "1" <;> simp [h]

/-- C15: over the real numbers, with the real exponential, `my_sig t beta` is
`1 / (1 + exp (-beta * t))`; it is one half at argument zero for every
steepness, and one half at steepness zero for every argument. -/
theorem my_sig_real (t beta : ℝ) :
    my_sig Real.exp t beta = 1 / (1 + Real.exp (-beta * t)) ∧
      my_sig Real.exp 0 beta = 1 / 2 ∧ my_sig Real.exp t 0 = 1 / 2 := by
  refine ⟨rfl, ?_, ?_⟩
  · simp only [my_sig, mul_zero, Real.exp_zero]
    norm_num
  · simp only [my_sig, neg_zero, zero_mul, Real.exp_zero]
    norm_num

/-- C16: over the real numbers, with the real power and absolute value,
`my_pow x y` is the magnitude of `x` raised to `y`; so a base and its negation
give the same value, and `my_pow (-2) 2` is `4`. -/
theorem my_pow_real (x y : ℝ) :
    my_pow (fun a b : ℝ => a ^ b) abs x y = (abs x) ^ y ∧
      my_pow (fun a b : ℝ => a ^ b) abs x y = my_pow (fun a b : ℝ => a ^ b) abs (-x) y ∧
      my_pow (fun a b : ℝ => a ^ b) abs (-2) 2 = 4 := by
  refine ⟨rfl, ?_, ?_⟩
  · simp only [my_pow, abs_neg]
  · simp only [my_pow, abs_neg, Real.rpow_two]
    norm_num

/-- C17: a sum is never folded to the zero sentinel. For every `s1`, `s2` the
output of `print_my_sum` is not "0"; in particular "0", "0" print "(2*0)". -/
theorem print_my_sum_ne_zero (s1 s2 : String) :
    print_my_sum s1 s2 ≠ "0" ∧ print_my_sum "0" "0" = "(2*0)" := by
  refine ⟨?_, by decide⟩
  unfold print_my_sum
  by_cases h1 : s1 = s2
  · subst h1
    intro h
    have hd := congrArg String.data h
    simp [String.data_append] at hd
  · by_cases h2 : s1 = "0"
    · subst h2
      simpa [h1] using Ne.symm h1
    · by_cases h3 : s2 = "0"
      · simp [h1, h2, h3]
      · intro h
        have hd := congrArg String.data h
        simp [h1, h2, h3, String.data_append] at hd

/-- C18: non-empty operands give a non-empty expression. For non-empty `s1`,
`s2` the output of each of the nine symbolic simplifiers is non-empty. -/
theorem print_nonempty (s1 s2 : String) (h1 : s1 ≠ "") (h2 : s2 ≠ "") :
    print_my_sum s1 s2 ≠ "" ∧ print_my_diff s1 s2 ≠ "" ∧
      print_my_mul s1 s2 ≠ "" ∧ print_my_div s1 s2 ≠ "" ∧
      print_my_pow s1 s2 ≠ "" ∧ print_my_sig s1 s2 ≠ "" ∧
      print_my_sqrt s1 s2 ≠ "" ∧ print_my_sin s1 s2 ≠ "" ∧
      print_my_log s1 s2 ≠ "" := by
  refine ⟨?_, ?_, ?_, ?_, ?_, ?_, ?_, ?_, ?_⟩
  · unfold print_my_sum
    split_ifs <;> first | exact h1 | exact h2 | exact string_ne_empty _ (by simp [String.data_append])
  · unfold print_my_diff
    split_ifs <;> first | exact h1 | exact h2 | exact string_ne_empty _ (by simp [String.data_append])
  · unfold print_my_mul
    split_ifs <;> first | exact h1 | exact h2 | exact string_ne_empty _ (by simp [String.data_append])
  · unfold print_my_div
    split_ifs <;> first | exact h1 | exact h2 | exact string_ne_empty _ (by simp [String.data_append])
  · unfold print_my_pow
    split_ifs <;> first | exact h1 | exact h2 | exact string_ne_empty _ (by simp [String.data_append])
  · unfold print_my_sig
    split_ifs <;> first | exact h1 | exact h2 | exact string_ne_empty _ (by simp [String.data_append])
  · unfold print_my_sqrt
    split_ifs <;> first | exact h1 | exact h2 | exact string_ne_empty _ (by simp [String.data_append])
  · unfold print_my_sin
    exact string_ne_empty _ (by simp [String.data_append])
  · unfold print_my_log
    split_ifs <;> first | exact h1 | exact h2 | exact string_ne_empty _ (by simp [String.data_append])

/-- C18 (witness): the nine simplifiers at the non-empty operands "a" and "b". -/
theorem print_nonempty_witness :
    ("a" : String) ≠ "" ∧ ("b" : String) ≠ "" ∧
      print_my_sum "a" "b" ≠ "" ∧ print_my_diff "a" "b" ≠ "" ∧
      print_my_mul "a" "b" ≠ "" ∧ print_my_div "a" "b" ≠ "" ∧
      print_my_pow "a" "b" ≠ "" ∧ print_my_sig "a" "b" ≠ "" ∧
      print_my_sqrt "a" "b" ≠ "" ∧ print_my_sin "a" "b" ≠ "" ∧
      print_my_log "a" "b" ≠ "" :=
  ⟨by decide, by decide, print_nonempty "a" "b" (by decide) (by decide)⟩

/-- C19: the zero folding of `print_my_sqrt` is symmetric: for every `s`, the
operands `s`, "0" and the operands "0", `s` print the same. -/
theorem print_my_sqrt_zero_symm (s : String) :
    print_my_sqrt s "0" = print_my_sqrt "0" s := by
  unfold print_my_sqrt
  by_cases h : s = "0"
  · subst h; rfl
  · simp [h]

end dcgp
